import Mathlib

/-!
Verification development for the SmartCityParking repository.

The engine under study lives in the PostGIS/plpgsql layer: spatial
validation triggers (`validate_bay_within_zone`, `validate_sensor_near_bay`,
`validate_violation_inside_bay`), geometry normalizers
(`normalize_to_polygon`, `normalize_to_linestring`, `normalize_to_point`),
the radius query `find_available_bays_near`, the occupancy aggregate
`calculate_zone_occupancy`, and the session trigger
`update_bay_status_on_session`.

Modelling conventions:
* Geometries are a tagged union mirroring the PostGIS `GeometryType`
  discriminator actually branched on by the code.  Coordinates are kept
  as rationals so that geometries are concrete values.
* The PostGIS metric/topological primitives (`ST_Within`, `ST_Contains`,
  `ST_Area`, `ST_Distance`, `ST_Length`, `ST_Intersection`, `ST_Buffer`,
  `ST_Centroid`) are library internals, not code of this repository; they
  are modelled as an explicit `GeoOracle` parameter threaded through the
  embedded functions, so every embedded function is executable once a
  concrete oracle is supplied.  `ST_DWithin(a,b,r)` is, per PostGIS
  semantics, `ST_Distance(a,b) <= r` and is defined that way here.
* `RAISE EXCEPTION` becomes an `Except ValError` result; `RETURN NEW`
  becomes `Except.ok`.
* Tables are lists of row structures; `zone_id`/`bay_id` are primary
  keys, so a foreign-key `SELECT ... WHERE id = x` / `JOIN` is a
  `List.find?` lookup.
* Timestamp bookkeeping columns (`last_status_update`) and JSON
  serialization columns (`geojson` built by `json_build_object`) are not
  modelled: the former is wall-clock state, the latter a rendering of
  fields that the model keeps directly (the `geom` field of a result row
  stands for the serialized geometry).
-/

namespace SmartCityParking

/-- Geometry values, tagged by the PostGIS `GeometryType` discriminator
the plpgsql code branches on.  A polygon is a list of rings, a
multipolygon a list of polygons (`ST_GeometryN` enumerates them), a
collection an arbitrary list of member geometries. -/
inductive Geometry where
  | point (lng lat : ℚ)
  | linestring (pts : List (ℚ × ℚ))
  | polygon (rings : List (List (ℚ × ℚ)))
  | multilinestring (lines : List (List (ℚ × ℚ)))
  | multipolygon (polys : List (List (List (ℚ × ℚ))))
  | collection (members : List Geometry)

/-- `GeometryType(geom)` as the SQL code reads it. -/
def geometryType : Geometry → String
  | .point _ _ => "POINT"
  | .linestring _ => "LINESTRING"
  | .polygon _ => "POLYGON"
  | .multilinestring _ => "MULTILINESTRING"
  | .multipolygon _ => "MULTIPOLYGON"
  | .collection _ => "GEOMETRYCOLLECTION"

/-- The PostGIS geometric primitives used by the repository's SQL, as an
oracle parameter: `stWithin`/`stContains` for `ST_Within`/`ST_Contains`,
`stAreaPlanar` for `ST_Area` on geometry, `stAreaGeod` for
`ST_Area(::geography)` (square meters), `stDistGeod` for
`ST_Distance(::geography)` (meters), `stLenGeod` for
`ST_Length(::geography)`, `stIntersection` for `ST_Intersection`,
`stBuffer` for `ST_Buffer(::geography, r)::geometry`, `stCentroid` for
`ST_Centroid`. -/
structure GeoOracle where
  stWithin : Geometry → Geometry → Bool
  stContains : Geometry → Geometry → Bool
  stAreaPlanar : Geometry → ℚ
  stAreaGeod : Geometry → ℚ
  stDistGeod : Geometry → Geometry → ℚ
  stLenGeod : Geometry → ℚ
  stIntersection : Geometry → Geometry → Geometry
  stBuffer : Geometry → ℚ → Geometry
  stCentroid : Geometry → Geometry

/-- `ST_DWithin(a::geography, b::geography, r)`: true when the geodesic
distance is at most `r` meters (PostGIS defines `ST_DWithin` as distance
within `r`). -/
def stDWithin (O : GeoOracle) (a b : Geometry) (r : ℚ) : Bool :=
  O.stDistGeod a b ≤ r

/-- Row of `parking_zones` (columns the engine reads). -/
structure ParkingZone where
  zone_id : Nat
  name : String
  is_active : Bool
  geom : Geometry

/-- Row of `parking_bays` (columns the engine reads). -/
structure ParkingBay where
  bay_id : Nat
  zone_id : Nat
  bay_number : String
  status : String
  is_disabled_only : Bool
  is_electric : Bool
  geom : Geometry

/-- Row of `sensors`: `bay_id` is nullable (`ON DELETE SET NULL`). -/
structure Sensor where
  sensor_id : Nat
  bay_id : Option Nat
  geom : Geometry

/-- Row of `violations`: `bay_id INTEGER NOT NULL`. -/
structure Violation where
  violation_id : Nat
  bay_id : Nat
  geom : Geometry

/-- Row of `parking_sessions` (columns the trigger reads). -/
structure ParkingSession where
  session_id : Nat
  bay_id : Nat
  status : String

/-- `RAISE EXCEPTION` outcomes of the validation triggers. -/
inductive ValError where
  | zoneNotFound (zone_id : Nat)
  | containmentViolation
  | bayNotFound (bay_id : Nat)
  | proximityViolation
  deriving DecidableEq, Repr

/-- `SELECT ... FROM parking_zones WHERE zone_id = zid` (`zone_id` is the
primary key). -/
def lookupZone (zones : List ParkingZone) (zid : Nat) : Option ParkingZone :=
  zones.find? (fun z => z.zone_id == zid)

/-- `SELECT ... FROM parking_bays WHERE bay_id = bid` (`bay_id` is the
primary key). -/
def lookupBay (bays : List ParkingBay) (bid : Nat) : Option ParkingBay :=
  bays.find? (fun b => b.bay_id == bid)

/-- `validate_bay_within_zone()`: fetch the zone of `NEW`; raise if it
does not exist; accept if `ST_Within(NEW.geom, zone_geom)`; otherwise
raise unless
`ST_Area(ST_Intersection(NEW.geom, zone_geom)) / ST_Area(NEW.geom) >= 0.9`. -/
def validate_bay_within_zone (O : GeoOracle) (zones : List ParkingZone)
    (bay : ParkingBay) : Except ValError ParkingBay :=
  match lookupZone zones bay.zone_id with
  | none => .error (.zoneNotFound bay.zone_id)
  | some z =>
    if O.stWithin bay.geom z.geom then .ok bay
    else if O.stAreaPlanar (O.stIntersection bay.geom z.geom) / O.stAreaPlanar bay.geom
        < 9 / 10 then
      .error .containmentViolation
    else .ok bay

/-- `validate_sensor_near_bay()`: skip when `NEW.bay_id IS NULL`; raise
when the bay does not exist; accept if `ST_Within(NEW.geom, bay_geom)`;
otherwise compute the geodesic distance and raise when it exceeds the
3.0 meter threshold. -/
def validate_sensor_near_bay (O : GeoOracle) (bays : List ParkingBay)
    (s : Sensor) : Except ValError Sensor :=
  match s.bay_id with
  | none => .ok s
  | some bid =>
    match lookupBay bays bid with
    | none => .error (.bayNotFound bid)
    | some b =>
      if O.stWithin s.geom b.geom then .ok s
      else if O.stDistGeod s.geom b.geom > 3 then .error .proximityViolation
      else .ok s

/-- `validate_violation_inside_bay()`: fetch the bay of `NEW` (raise if
absent); accept if `ST_Contains(bay_geom, NEW.geom)`; accept if
`ST_DWithin(NEW.geom::geography, bay_geom::geography, 2.0)`; otherwise
raise. -/
def validate_violation_inside_bay (O : GeoOracle) (bays : List ParkingBay)
    (v : Violation) : Except ValError Violation :=
  match lookupBay bays v.bay_id with
  | none => .error (.bayNotFound v.bay_id)
  | some b =>
    if O.stContains b.geom v.geom then .ok v
    else if stDWithin O v.geom b.geom 2 then .ok v
    else .error .proximityViolation

/-- The accumulator loop shared by `normalize_to_polygon` /
`normalize_to_linestring`: `result := NULL; max := 0;` then for each
member geometry, if its measure strictly exceeds the running maximum,
remember it.  Mirrors the `FOR i IN 1..n LOOP` bodies. -/
def pickLargest (measure : Geometry → ℚ) : List Geometry → ℚ → Option Geometry → Option Geometry
  | [], _, res => res
  | g :: rest, best, res =>
    if measure g > best then pickLargest measure rest (measure g) (some g)
    else pickLargest measure rest best res

/-- The member polygons of a multipolygon, as `ST_GeometryN` returns
them. -/
def multipolyMembers (polys : List (List (List (ℚ × ℚ)))) : List Geometry :=
  polys.map Geometry.polygon

/-- `normalize_to_polygon(geom)`: identity on a `POLYGON`; on a
`MULTIPOLYGON` the member with the largest `ST_Area(::geography)`; on a
`GEOMETRYCOLLECTION` the `POLYGON` member with the largest geodesic
area; on a `POINT` the 2.5 m geography buffer; `NULL` otherwise.  (The
plpgsql `IF geom IS NULL` guard has no counterpart because the model's
input is a value, never SQL `NULL`.) -/
def normalize_to_polygon (O : GeoOracle) : Geometry → Option Geometry
  | .polygon rings => some (.polygon rings)
  | .multipolygon polys =>
    pickLargest O.stAreaGeod (multipolyMembers polys) 0 none
  | .collection members =>
    pickLargest O.stAreaGeod
      (members.filter (fun m => geometryType m == "POLYGON")) 0 none
  | .point lng lat => some (O.stBuffer (.point lng lat) (5 / 2))
  | _ => none

/-- `normalize_to_linestring(geom)`: identity on a `LINESTRING`; on a
`MULTILINESTRING` the member with the largest `ST_Length(::geography)`;
on a `GEOMETRYCOLLECTION` the `LINESTRING` member with the greatest
geodesic length; `NULL` otherwise. -/
def normalize_to_linestring (O : GeoOracle) : Geometry → Option Geometry
  | .linestring pts => some (.linestring pts)
  | .multilinestring lines =>
    pickLargest O.stLenGeod (lines.map Geometry.linestring) 0 none
  | .collection members =>
    pickLargest O.stLenGeod
      (members.filter (fun m => geometryType m == "LINESTRING")) 0 none
  | _ => none

/-- `normalize_to_point(geom)`: identity on a `POINT`; the centroid of
any other geometry. -/
def normalize_to_point (O : GeoOracle) : Geometry → Geometry
  | .point lng lat => .point lng lat
  | g => O.stCentroid g

/-- A result row of `find_available_bays_near` (the `geom` field stands
for the GeoJSON feature built from `pb.geom`). -/
structure BayRow where
  bay_id : Nat
  bay_number : String
  zone_id : Nat
  zone_name : String
  status : String
  is_disabled_only : Bool
  is_electric : Bool
  distance_meters : ℚ
  geom : Geometry

/-- `find_available_bays_near(lat, lng, radius_meters)`:
`FROM parking_bays pb JOIN parking_zones pz ON pb.zone_id = pz.zone_id
WHERE pb.status = 'available' AND pz.is_active = true AND
ST_DWithin(pb.geom::geography, point::geography, radius_meters)
ORDER BY distance_meters` with
`distance_meters = ST_Distance(pb.geom::geography, point::geography)`.
The join on the primary key `zone_id` is a lookup. -/
def find_available_bays_near (O : GeoOracle)
    (bays : List ParkingBay) (zones : List ParkingZone)
    (lat lng radius_meters : ℚ) : List BayRow :=
  let center := Geometry.point lng lat
  let rows := bays.filterMap (fun pb =>
    match lookupZone zones pb.zone_id with
    | none => none
    | some pz =>
      if pb.status == "available" && pz.is_active
          && stDWithin O pb.geom center radius_meters then
        some { bay_id := pb.bay_id, bay_number := pb.bay_number
             , zone_id := pb.zone_id, zone_name := pz.name
             , status := pb.status, is_disabled_only := pb.is_disabled_only
             , is_electric := pb.is_electric
             , distance_meters := O.stDistGeod pb.geom center
             , geom := pb.geom }
      else none)
  rows.insertionSort (fun a b => a.distance_meters ≤ b.distance_meters)

/-- Result row of `calculate_zone_occupancy`. -/
structure OccupancyRow where
  total_bays : Nat
  available_bays : Nat
  occupied_bays : Nat
  reserved_bays : Nat
  closed_bays : Nat
  occupancy_percent : ℚ
  deriving DecidableEq, Repr

/-- `ROUND(x::numeric, 2)` on the non-negative values arising here
(PostgreSQL rounds numerics half away from zero; for non-negative input
that is `round`, half up). -/
def roundTwo (q : ℚ) : ℚ := (round (q * 100) : ℤ) / 100

/-- `calculate_zone_occupancy(p_zone_id)`: status counts over the bays
of one zone, and `occupancy_percent = ROUND(occupied / (count of bays
with status <> 'closed') * 100, 2)` when that denominator is positive,
else `0`. -/
def calculate_zone_occupancy (bays : List ParkingBay) (p_zone_id : Nat) :
    OccupancyRow :=
  let zb := bays.filter (fun b => b.zone_id == p_zone_id)
  let countWith := fun (s : String) => (zb.filter (fun b => b.status == s)).length
  let nonClosed := (zb.filter (fun b => b.status != "closed")).length
  { total_bays := zb.length
  , available_bays := countWith "available"
  , occupied_bays := countWith "occupied"
  , reserved_bays := countWith "reserved"
  , closed_bays := countWith "closed"
  , occupancy_percent :=
      if nonClosed > 0 then
        roundTwo ((countWith "occupied" : ℚ) / (nonClosed : ℚ) * 100)
      else 0 }

/-- `update_bay_status_on_session()` for `TG_OP = 'INSERT'`: when the new
session's status is `'active'`, `UPDATE parking_bays SET status =
'occupied' WHERE bay_id = NEW.bay_id` (unconditionally on the bay's
current status); otherwise no change. -/
def update_bay_status_on_session_insert (bays : List ParkingBay)
    (newSession : ParkingSession) : List ParkingBay :=
  if newSession.status == "active" then
    bays.map (fun b =>
      if b.bay_id == newSession.bay_id then { b with status := "occupied" } else b)
  else bays

/-- `update_bay_status_on_session()` for `TG_OP = 'UPDATE'` (the trigger
fires on `UPDATE OF status`): `active → completed|cancelled` frees the
bay (`status = 'available'`); `active → overstay` keeps it `'occupied'`;
any other transition leaves `parking_bays` untouched. -/
def update_bay_status_on_session_update (bays : List ParkingBay)
    (oldSession newSession : ParkingSession) : List ParkingBay :=
  if (newSession.status == "completed" || newSession.status == "cancelled")
      && oldSession.status == "active" then
    bays.map (fun b =>
      if b.bay_id == newSession.bay_id then { b with status := "available" } else b)
  else if newSession.status == "overstay" && oldSession.status == "active" then
    bays.map (fun b =>
      if b.bay_id == newSession.bay_id then { b with status := "occupied" } else b)
  else bays

/-! ### Concrete fixtures used by witness theorems -/

/-- A 10 × 10 square test zone polygon. -/
def zonePoly : Geometry :=
  .polygon [[(0, 0), (0, 10), (10, 10), (10, 0), (0, 0)]]

/-- A small test bay polygon. -/
def bayPoly : Geometry :=
  .polygon [[(1, 1), (1, 3), (2, 3), (2, 1), (1, 1)]]

/-- A test oracle: nothing is within/contained in anything, the planar
area of a point is 8 and of anything else 10, every intersection is the
origin point (hence every overlap quotient is 8/10), all geodesic
distances are 4 meters. -/
def oracleA : GeoOracle where
  stWithin := fun _ _ => false
  stContains := fun _ _ => false
  stAreaPlanar := fun g => match g with | .point _ _ => 8 | _ => 10
  stAreaGeod := fun _ => 0
  stDistGeod := fun _ _ => 4
  stLenGeod := fun _ => 0
  stIntersection := fun _ _ => .point 0 0
  stBuffer := fun g _ => g
  stCentroid := fun g => g

/-- Test zone row. -/
def zoneA : ParkingZone :=
  { zone_id := 1, name := "Zone A", is_active := true, geom := zonePoly }

/-- Test bay row referencing `zoneA`. -/
def bayA : ParkingBay :=
  { bay_id := 5, zone_id := 1, bay_number := "A-5", status := "available"
  , is_disabled_only := false, is_electric := false, geom := bayPoly }

/-- Test sensor row referencing `bayA`. -/
def sensorA : Sensor :=
  { sensor_id := 9, bay_id := some 5, geom := .point 3 3 }

/-- Test violation row referencing `bayA`. -/
def violationA : Violation :=
  { violation_id := 2, bay_id := 5, geom := .point 3 3 }

/-- A 5 m × 6 m ring: the fixture polygon of geodesic area 30 m². -/
def ringThirty : List (ℚ × ℚ) := [(0, 0), (0, 6), (5, 6), (5, 0), (0, 0)]

/-- A 5 m × 2 m ring: the fixture polygon of geodesic area 10 m². -/
def ringTen : List (ℚ × ℚ) := [(0, 0), (0, 2), (5, 2), (5, 0), (0, 0)]

/-- A test oracle whose geodesic area gives the single-ring polygons
`ringThirty` and `ringTen` their nominal 30 m² and 10 m² areas. -/
def oracleB : GeoOracle where
  stWithin := fun _ _ => false
  stContains := fun _ _ => false
  stAreaPlanar := fun _ => 0
  stAreaGeod := fun g => match g with
    | .polygon [r] => if r = ringThirty then 30 else if r = ringTen then 10 else 0
    | _ => 0
  stDistGeod := fun _ _ => 0
  stLenGeod := fun _ => 0
  stIntersection := fun _ _ => .point 0 0
  stBuffer := fun g _ => g
  stCentroid := fun g => g

/-! ### Loop invariants of the normalizer accumulator -/

/-- If no list element strictly improves on the running maximum, the
`pickLargest` loop keeps its accumulator. -/
theorem pickLargest_of_forall_le (measure : Geometry → ℚ) :
    ∀ (l : List Geometry) (best : ℚ) (res : Option Geometry),
      (∀ g ∈ l, measure g ≤ best) → pickLargest measure l best res = res := by
  intro l
  induction l with
  | nil => intro best res _; rfl
  | cons g rest ih =>
    intro best res h
    have hg : ¬ best < measure g := not_lt.mpr (h g (List.mem_cons_self g rest))
    simp only [pickLargest, if_neg hg]
    exact ih best res fun x hx => h x (List.mem_cons_of_mem g hx)

/-- If some list element strictly exceeds the running maximum, the
`pickLargest` loop returns a list element whose measure dominates every
element of the list (and exceeds the initial maximum). -/
theorem pickLargest_mem_and_max (measure : Geometry → ℚ) :
    ∀ (l : List Geometry) (best : ℚ) (res : Option Geometry),
      (∃ g ∈ l, best < measure g) →
      ∃ m ∈ l, pickLargest measure l best res = some m ∧
        (∀ g ∈ l, measure g ≤ measure m) ∧ best < measure m := by
  intro l
  induction l with
  | nil =>
    rintro best res ⟨g, hg, -⟩
    cases hg
  | cons g rest ih =>
    intro best res hex
    by_cases hg : best < measure g
    · by_cases hrest : ∃ x ∈ rest, measure g < measure x
      · obtain ⟨m, hm, heq, hbd, hlt⟩ := ih (measure g) (some g) hrest
        refine ⟨m, List.mem_cons_of_mem g hm, ?_, ?_, hg.trans hlt⟩
        · simp only [pickLargest, if_pos hg]
          exact heq
        · intro x hx
          rcases List.mem_cons.mp hx with rfl | hx'
          · exact hlt.le
          · exact hbd x hx'
      · push_neg at hrest
        refine ⟨g, List.mem_cons_self g rest, ?_, ?_, hg⟩
        · simp only [pickLargest, if_pos hg]
          exact pickLargest_of_forall_le measure rest (measure g) (some g) hrest
        · intro x hx
          rcases List.mem_cons.mp hx with rfl | hx'
          · exact le_refl _
          · exact hrest x hx'
    · have hex' : ∃ x ∈ rest, best < measure x := by
        obtain ⟨x, hx, hlt⟩ := hex
        rcases List.mem_cons.mp hx with rfl | hx'
        · exact absurd hlt hg
        · exact ⟨x, hx', hlt⟩
      obtain ⟨m, hm, heq, hbd, hlt⟩ := ih best res hex'
      refine ⟨m, List.mem_cons_of_mem g hm, ?_, ?_, hlt⟩
      · simp only [pickLargest, if_neg hg]
        exact heq
      · intro x hx
        rcases List.mem_cons.mp hx with rfl | hx'
        · exact ((not_lt.mp hg).trans hlt.le)
        · exact hbd x hx'

/-! ### Claim theorems -/

/-- C1: a bay insert/update is accepted exactly when the bay polygon is
within its zone polygon or the intersection area over the bay's own area
is at least 0.90, and is rejected when the referenced zone does not
exist.  Consequently every persisted bay satisfies containment or the
90 % overlap bound (a bay overlapping by only 80 % fails the right-hand
side, hence is rejected). -/
theorem c1_bay_within_zone_accept_iff (O : GeoOracle)
    (zones : List ParkingZone) (bay : ParkingBay) :
    (lookupZone zones bay.zone_id = none →
      validate_bay_within_zone O zones bay = .error (.zoneNotFound bay.zone_id)) ∧
    (∀ z, lookupZone zones bay.zone_id = some z →
      (validate_bay_within_zone O zones bay = .ok bay ↔
        O.stWithin bay.geom z.geom = true ∨
        9 / 10 ≤
          O.stAreaPlanar (O.stIntersection bay.geom z.geom) /
            O.stAreaPlanar bay.geom)) := by
  constructor
  · intro h
    simp [validate_bay_within_zone, h]
  · intro z hz
    simp only [validate_bay_within_zone, hz]
    by_cases hw : O.stWithin bay.geom z.geom
    · simp [hw]
    · by_cases hr :
        O.stAreaPlanar (O.stIntersection bay.geom z.geom) /
          O.stAreaPlanar bay.geom < 9 / 10
      · simp [hw, hr, not_le.mpr hr]
      · simp [hw, hr, not_lt.mp hr]

/-- C1 witness: with `oracleA` the overlap quotient of `bayA` in `zoneA`
is 8/10 < 9/10 and `ST_Within` is false, so the biconditional of
`c1_bay_within_zone_accept_iff` holds concretely (both sides false: the
write is rejected). -/
theorem c1_witness :
    lookupZone [zoneA] bayA.zone_id = some zoneA ∧
    (validate_bay_within_zone oracleA [zoneA] bayA = .ok bayA ↔
      oracleA.stWithin bayA.geom zoneA.geom = true ∨
      9 / 10 ≤
        oracleA.stAreaPlanar (oracleA.stIntersection bayA.geom zoneA.geom) /
          oracleA.stAreaPlanar bayA.geom) :=
  ⟨rfl, (c1_bay_within_zone_accept_iff oracleA [zoneA] bayA).2 zoneA rfl⟩

/-- C2: a sensor insert/update with no associated bay is accepted with no
check; with a bay, it is accepted exactly when the sensor point is
within the bay polygon or its geodesic distance to the bay is at most
3.0 meters (so a point 4 m away with no containment is rejected). -/
theorem c2_sensor_near_bay_accept_iff (O : GeoOracle)
    (bays : List ParkingBay) (s : Sensor) :
    (s.bay_id = none → validate_sensor_near_bay O bays s = .ok s) ∧
    (∀ bid b, s.bay_id = some bid → lookupBay bays bid = some b →
      (validate_sensor_near_bay O bays s = .ok s ↔
        O.stWithin s.geom b.geom = true ∨ O.stDistGeod s.geom b.geom ≤ 3)) := by
  constructor
  · intro h
    simp [validate_sensor_near_bay, h]
  · intro bid b hbid hb
    simp only [validate_sensor_near_bay, hbid, hb]
    by_cases hw : O.stWithin s.geom b.geom
    · simp [hw]
    · by_cases hd : O.stDistGeod s.geom b.geom > 3
      · simp [hw, hd, not_le.mpr hd]
      · simp [hw, hd, not_lt.mp hd]

/-- C2 witness: `sensorA` references `bayA`; under `oracleA` the distance
is 4 > 3 and there is no containment, so the biconditional of
`c2_sensor_near_bay_accept_iff` holds concretely with both sides false:
the sensor write is rejected. -/
theorem c2_witness :
    sensorA.bay_id = some 5 ∧ lookupBay [bayA] 5 = some bayA ∧
    (validate_sensor_near_bay oracleA [bayA] sensorA = .ok sensorA ↔
      oracleA.stWithin sensorA.geom bayA.geom = true ∨
      oracleA.stDistGeod sensorA.geom bayA.geom ≤ 3) :=
  ⟨rfl, rfl,
    (c2_sensor_near_bay_accept_iff oracleA [bayA] sensorA).2 5 bayA rfl rfl⟩

/-- C3: a violation insert/update is accepted exactly when the violation
point is contained in the referenced bay's polygon or lies within the
2.0 meter geodesic tolerance of it; a violation referencing a
nonexistent bay is rejected (the bay reference is a mandatory column). -/
theorem c3_violation_inside_bay_accept_iff (O : GeoOracle)
    (bays : List ParkingBay) (v : Violation) :
    (lookupBay bays v.bay_id = none →
      validate_violation_inside_bay O bays v = .error (.bayNotFound v.bay_id)) ∧
    (∀ b, lookupBay bays v.bay_id = some b →
      (validate_violation_inside_bay O bays v = .ok v ↔
        O.stContains b.geom v.geom = true ∨ O.stDistGeod v.geom b.geom ≤ 2)) := by
  constructor
  · intro h
    simp [validate_violation_inside_bay, h]
  · intro b hb
    simp only [validate_violation_inside_bay, hb]
    by_cases hc : O.stContains b.geom v.geom
    · simp [hc]
    · by_cases hd : O.stDistGeod v.geom b.geom ≤ 2
      · simp [hc, hd, stDWithin]
      · simp [hc, hd, stDWithin]

/-- C3 witness: `violationA` references `bayA`; under `oracleA` the
distance is 4 > 2 and there is no containment, so the biconditional of
`c3_violation_inside_bay_accept_iff` holds concretely with both sides
false: the violation write is rejected. -/
theorem c3_witness :
    lookupBay [bayA] violationA.bay_id = some bayA ∧
    (validate_violation_inside_bay oracleA [bayA] violationA = .ok violationA ↔
      oracleA.stContains bayA.geom violationA.geom = true ∨
      oracleA.stDistGeod violationA.geom bayA.geom ≤ 2) :=
  ⟨rfl, (c3_violation_inside_bay_accept_iff oracleA [bayA] violationA).2 bayA rfl⟩

/-- C6: each normalizer is the identity on inputs already of its
canonical kind: `normalize_to_polygon` on a Polygon, `normalize_to_linestring`
on a LineString, `normalize_to_point` on a Point. -/
theorem c6_normalizers_idempotent (O : GeoOracle) :
    (∀ rings, normalize_to_polygon O (.polygon rings) = some (.polygon rings)) ∧
    (∀ pts, normalize_to_linestring O (.linestring pts) = some (.linestring pts)) ∧
    (∀ lng lat, normalize_to_point O (.point lng lat) = .point lng lat) :=
  ⟨fun _ => rfl, fun _ => rfl, fun _ _ => rfl⟩

/-- C4: `normalize_to_polygon` is the identity on a Polygon; on a
MultiPolygon (or GeometryCollection) with at least one (polygon) member
of positive geodesic area it returns a member polygon of maximal
geodesic area; on a Point it returns the fixed-radius 2.5 m buffer
polygon centered there; and on the remaining geometry kinds
(LineString, MultiLineString) it returns none. -/
theorem c4_normalize_to_polygon_spec (O : GeoOracle) :
    (∀ rings, normalize_to_polygon O (.polygon rings) = some (.polygon rings)) ∧
    (∀ polys, (∃ g ∈ multipolyMembers polys, 0 < O.stAreaGeod g) →
      ∃ m ∈ multipolyMembers polys,
        normalize_to_polygon O (.multipolygon polys) = some m ∧
        ∀ g ∈ multipolyMembers polys, O.stAreaGeod g ≤ O.stAreaGeod m) ∧
    (∀ members,
      (∃ g ∈ members.filter (fun m => geometryType m == "POLYGON"),
        0 < O.stAreaGeod g) →
      ∃ m ∈ members.filter (fun m => geometryType m == "POLYGON"),
        normalize_to_polygon O (.collection members) = some m ∧
        ∀ g ∈ members.filter (fun m => geometryType m == "POLYGON"),
          O.stAreaGeod g ≤ O.stAreaGeod m) ∧
    (∀ lng lat, normalize_to_polygon O (.point lng lat) =
      some (O.stBuffer (.point lng lat) (5 / 2))) ∧
    (∀ pts, normalize_to_polygon O (.linestring pts) = none) ∧
    (∀ lines, normalize_to_polygon O (.multilinestring lines) = none) := by
  refine ⟨fun _ => rfl, ?_, ?_, fun _ _ => rfl, fun _ => rfl, fun _ => rfl⟩
  · intro polys hex
    obtain ⟨m, hm, heq, hbd, -⟩ :=
      pickLargest_mem_and_max O.stAreaGeod (multipolyMembers polys) 0 none hex
    exact ⟨m, hm, heq, hbd⟩
  · intro members hex
    obtain ⟨m, hm, heq, hbd, -⟩ :=
      pickLargest_mem_and_max O.stAreaGeod
        (members.filter (fun m => geometryType m == "POLYGON")) 0 none hex
    exact ⟨m, hm, heq, hbd⟩

/-- C4 witness: the two-part multipolygon of Scenario E, with parts of
geodesic area 10 m² and 30 m² under `oracleB`, normalizes to a member
of maximal area — concretely the 30 m² part, which dominates both
members. -/
theorem c4_witness :
    (∃ g ∈ multipolyMembers [[ringTen], [ringThirty]],
      0 < oracleB.stAreaGeod g) ∧
    (∃ m ∈ multipolyMembers [[ringTen], [ringThirty]],
      normalize_to_polygon oracleB (.multipolygon [[ringTen], [ringThirty]]) =
        some m ∧
      ∀ g ∈ multipolyMembers [[ringTen], [ringThirty]],
        oracleB.stAreaGeod g ≤ oracleB.stAreaGeod m) := by
  have hx : ∃ g ∈ multipolyMembers [[ringTen], [ringThirty]],
      0 < oracleB.stAreaGeod g := by
    refine ⟨.polygon [ringTen], ?_, ?_⟩
    · exact List.mem_cons_self _ _
    · show (0 : ℚ) <
        (if [ringTen] = [ringThirty] then 30
         else if [ringTen] = [ringTen] then 10 else 0 : ℚ)
      norm_num [ringTen, ringThirty]
  exact ⟨hx, (c4_normalize_to_polygon_spec oracleB).2.1 [[ringTen], [ringThirty]] hx⟩

/-- Every row returned by `find_available_bays_near` originates from a
bay row passing the `WHERE` clause: status `'available'`, an active
joined zone, and geodesic distance within the radius; the row's fields
are copied from that bay and zone. -/
theorem mem_find_available_bays_near (O : GeoOracle)
    (bays : List ParkingBay) (zones : List ParkingZone)
    (lat lng radius_meters : ℚ) (row : BayRow)
    (hrow : row ∈ find_available_bays_near O bays zones lat lng radius_meters) :
    ∃ pb ∈ bays, ∃ pz, lookupZone zones pb.zone_id = some pz ∧
      pb.status = "available" ∧ pz.is_active = true ∧
      O.stDistGeod pb.geom (.point lng lat) ≤ radius_meters ∧
      row = { bay_id := pb.bay_id, bay_number := pb.bay_number
            , zone_id := pb.zone_id, zone_name := pz.name
            , status := pb.status, is_disabled_only := pb.is_disabled_only
            , is_electric := pb.is_electric
            , distance_meters := O.stDistGeod pb.geom (.point lng lat)
            , geom := pb.geom } := by
  unfold find_available_bays_near at hrow
  rw [List.mem_insertionSort, List.mem_filterMap] at hrow
  obtain ⟨pb, hpb, hf⟩ := hrow
  cases hz : lookupZone zones pb.zone_id with
  | none =>
    rw [hz] at hf
    simp at hf
  | some pz =>
    rw [hz] at hf
    dsimp only at hf
    by_cases hcond : (pb.status == "available" && pz.is_active
        && stDWithin O pb.geom (.point lng lat) radius_meters) = true
    · rw [if_pos hcond] at hf
      simp only [Bool.and_eq_true, beq_iff_eq] at hcond
      obtain ⟨⟨hs, ha⟩, hd⟩ := hcond
      refine ⟨pb, hpb, pz, hz, hs, ha, ?_, ?_⟩
      · simpa [stDWithin, decide_eq_true_eq] using hd
      · exact (Option.some.injEq _ _).mp hf |>.symm
    · rw [if_neg hcond] at hf
      simp at hf

/-- C5: every row returned by the bay radius search has status
`'available'`, its true geodesic distance to the center is at most the
requested radius (and equals the reported `distance_meters`), and the
returned list is sorted by non-decreasing distance. -/
theorem c5_within_radius_spec (O : GeoOracle)
    (bays : List ParkingBay) (zones : List ParkingZone)
    (lat lng radius_meters : ℚ) :
    (∀ row ∈ find_available_bays_near O bays zones lat lng radius_meters,
      row.status = "available" ∧
      O.stDistGeod row.geom (.point lng lat) ≤ radius_meters ∧
      row.distance_meters = O.stDistGeod row.geom (.point lng lat)) ∧
    List.Sorted (fun a b : BayRow => a.distance_meters ≤ b.distance_meters)
      (find_available_bays_near O bays zones lat lng radius_meters) := by
  constructor
  · intro row hrow
    obtain ⟨pb, -, pz, -, hs, -, hd, hrfl⟩ :=
      mem_find_available_bays_near O bays zones lat lng radius_meters row hrow
    subst hrfl
    exact ⟨hs, hd, rfl⟩
  · haveI : IsTotal BayRow (fun a b => a.distance_meters ≤ b.distance_meters) :=
      ⟨fun a b => le_total _ _⟩
    haveI : IsTrans BayRow (fun a b => a.distance_meters ≤ b.distance_meters) :=
      ⟨fun _ _ _ => le_trans⟩
    exact List.sorted_insertionSort _ _

/-- The row produced for `bayA` under `oracleA` (distance 4 m). -/
def rowA : BayRow :=
  { bay_id := 5, bay_number := "A-5", zone_id := 1, zone_name := "Zone A"
  , status := "available", is_disabled_only := false, is_electric := false
  , distance_meters := 4, geom := bayPoly }

/-- C5 witness: with a 300 m radius around the origin, `bayA` (4 m away
under `oracleA`, in the active `zoneA`) is returned, and the returned
row satisfies the radius-search guarantees. -/
theorem c5_witness :
    rowA ∈ find_available_bays_near oracleA [bayA] [zoneA] 0 0 300 ∧
    (rowA.status = "available" ∧
      oracleA.stDistGeod rowA.geom (.point 0 0) ≤ 300 ∧
      rowA.distance_meters = oracleA.stDistGeod rowA.geom (.point 0 0)) := by
  have hmem : rowA ∈ find_available_bays_near oracleA [bayA] [zoneA] 0 0 300 := by
    have h : find_available_bays_near oracleA [bayA] [zoneA] 0 0 300 = [rowA] := by
      rfl
    rw [h]
    exact List.mem_singleton.mpr rfl
  exact ⟨hmem,
    (c5_within_radius_spec oracleA [bayA] [zoneA] 0 0 300).1 rowA hmem⟩

/-- C10: the radius search only ever returns rows whose joined zone is
active; hence if the (unique, primary-key) zone row of some `zone_id`
has `is_active = false`, no returned row carries that `zone_id`,
regardless of bay status or distance. -/
theorem c10_inactive_zone_never_returned (O : GeoOracle)
    (bays : List ParkingBay) (zones : List ParkingZone)
    (lat lng radius_meters : ℚ) :
    (∀ row ∈ find_available_bays_near O bays zones lat lng radius_meters,
      ∃ pz, lookupZone zones row.zone_id = some pz ∧ pz.is_active = true) ∧
    (∀ zid pz, lookupZone zones zid = some pz → pz.is_active = false →
      ∀ row ∈ find_available_bays_near O bays zones lat lng radius_meters,
        row.zone_id ≠ zid) := by
  have hmain : ∀ row ∈ find_available_bays_near O bays zones lat lng radius_meters,
      ∃ pz, lookupZone zones row.zone_id = some pz ∧ pz.is_active = true := by
    intro row hrow
    obtain ⟨pb, -, pz, hz, -, ha, -, hrfl⟩ :=
      mem_find_available_bays_near O bays zones lat lng radius_meters row hrow
    subst hrfl
    exact ⟨pz, hz, ha⟩
  refine ⟨hmain, ?_⟩
  intro zid pz hz hinactive row hrow heq
  obtain ⟨pz', hz', ha'⟩ := hmain row hrow
  rw [heq, hz] at hz'
  cases hz'
  rw [ha'] at hinactive
  cases hinactive

/-- An inactive test zone. -/
def zoneInactive : ParkingZone :=
  { zone_id := 2, name := "Zone B", is_active := false, geom := zonePoly }

/-- An available test bay inside the inactive `zoneInactive`, 4 m from
the origin under `oracleA`. -/
def bayB : ParkingBay :=
  { bay_id := 6, zone_id := 2, bay_number := "B-6", status := "available"
  , is_disabled_only := false, is_electric := false, geom := bayPoly }

/-- C10 witness: `zoneInactive` is the zone row for `zone_id = 2` and is
inactive, so the radius search over `bayB` (available and within the
300 m radius) returns no row with `zone_id = 2`. -/
theorem c10_witness :
    lookupZone [zoneInactive] 2 = some zoneInactive ∧
    zoneInactive.is_active = false ∧
    (∀ row ∈ find_available_bays_near oracleA [bayB] [zoneInactive] 0 0 300,
      row.zone_id ≠ 2) :=
  ⟨rfl, rfl,
    (c10_inactive_zone_never_returned oracleA [bayB] [zoneInactive] 0 0 300).2
      2 zoneInactive rfl rfl⟩

/-- Over bays whose status is one of the four legal values (the schema's
`CHECK` constraint), the status counts partition the list, and the
non-`'closed'` count is the sum of the other three counts. -/
theorem status_counts_split (l : List ParkingBay)
    (h : ∀ b ∈ l, b.status = "available" ∨ b.status = "occupied" ∨
      b.status = "reserved" ∨ b.status = "closed") :
    l.length =
      (l.filter (fun b => b.status == "available")).length +
      (l.filter (fun b => b.status == "occupied")).length +
      (l.filter (fun b => b.status == "reserved")).length +
      (l.filter (fun b => b.status == "closed")).length ∧
    (l.filter (fun b => b.status != "closed")).length =
      (l.filter (fun b => b.status == "available")).length +
      (l.filter (fun b => b.status == "occupied")).length +
      (l.filter (fun b => b.status == "reserved")).length := by
  induction l with
  | nil => simp
  | cons b rest ih =>
    have hb := h b (List.mem_cons_self b rest)
    obtain ⟨ihA, ihB⟩ := ih fun x hx => h x (List.mem_cons_of_mem b hx)
    rcases hb with hb | hb | hb | hb <;>
      simp [List.filter_cons, hb] <;>
      omega

/-- C7: for bays whose status is one of the four legal values,
`calculate_zone_occupancy` returns per-status counts that sum to the
total, and its percentage divides the occupied count by the number of
bays whose status is not `'closed'` (available + occupied + reserved —
closed bays are excluded from the denominator), times 100, rounded to
two decimals; it is 0 when that denominator is 0. -/
theorem c7_zone_occupancy_spec (bays : List ParkingBay) (p_zone_id : Nat)
    (h : ∀ b ∈ bays, b.status = "available" ∨ b.status = "occupied" ∨
      b.status = "reserved" ∨ b.status = "closed") :
    (calculate_zone_occupancy bays p_zone_id).total_bays =
      (calculate_zone_occupancy bays p_zone_id).available_bays +
      (calculate_zone_occupancy bays p_zone_id).occupied_bays +
      (calculate_zone_occupancy bays p_zone_id).reserved_bays +
      (calculate_zone_occupancy bays p_zone_id).closed_bays ∧
    (0 < (calculate_zone_occupancy bays p_zone_id).available_bays +
        (calculate_zone_occupancy bays p_zone_id).occupied_bays +
        (calculate_zone_occupancy bays p_zone_id).reserved_bays →
      (calculate_zone_occupancy bays p_zone_id).occupancy_percent =
        roundTwo
          (((calculate_zone_occupancy bays p_zone_id).occupied_bays : ℚ) /
            (((calculate_zone_occupancy bays p_zone_id).available_bays +
              (calculate_zone_occupancy bays p_zone_id).occupied_bays +
              (calculate_zone_occupancy bays p_zone_id).reserved_bays : Nat) : ℚ) *
            100)) ∧
    ((calculate_zone_occupancy bays p_zone_id).available_bays +
        (calculate_zone_occupancy bays p_zone_id).occupied_bays +
        (calculate_zone_occupancy bays p_zone_id).reserved_bays = 0 →
      (calculate_zone_occupancy bays p_zone_id).occupancy_percent = 0) := by
  have hz : ∀ b ∈ bays.filter (fun b => b.zone_id == p_zone_id),
      b.status = "available" ∨ b.status = "occupied" ∨
      b.status = "reserved" ∨ b.status = "closed" :=
    fun b hb => h b (List.mem_filter.mp hb).1
  obtain ⟨h1, h2⟩ := status_counts_split _ hz
  dsimp only [calculate_zone_occupancy]
  refine ⟨h1, ?_, ?_⟩
  · intro hpos
    rw [h2, if_pos hpos]
  · intro hzero
    rw [h2, if_neg (by omega)]

/-- A zone-1 test bay with the given id and status. -/
def mkBaySeven (i : Nat) (st : String) : ParkingBay :=
  { bay_id := i, zone_id := 1, bay_number := "Z", status := st
  , is_disabled_only := false, is_electric := false, geom := bayPoly }

/-- Zone-1 test population: two available, one occupied, one closed. -/
def baysSeven : List ParkingBay :=
  [mkBaySeven 1 "available", mkBaySeven 2 "available",
   mkBaySeven 3 "occupied", mkBaySeven 4 "closed"]

/-- C7 witness: on `baysSeven` (2 available, 1 occupied, 0 reserved,
1 closed) the non-closed denominator 3 is positive, and the percentage
equals `roundTwo (1 / 3 * 100)` — closed bays excluded. -/
theorem c7_witness :
    (∀ b ∈ baysSeven, b.status = "available" ∨ b.status = "occupied" ∨
      b.status = "reserved" ∨ b.status = "closed") ∧
    0 < (calculate_zone_occupancy baysSeven 1).available_bays +
        (calculate_zone_occupancy baysSeven 1).occupied_bays +
        (calculate_zone_occupancy baysSeven 1).reserved_bays ∧
    (calculate_zone_occupancy baysSeven 1).occupancy_percent =
      roundTwo
        (((calculate_zone_occupancy baysSeven 1).occupied_bays : ℚ) /
          (((calculate_zone_occupancy baysSeven 1).available_bays +
            (calculate_zone_occupancy baysSeven 1).occupied_bays +
            (calculate_zone_occupancy baysSeven 1).reserved_bays : Nat) : ℚ) *
          100) := by
  have h : ∀ b ∈ baysSeven, b.status = "available" ∨ b.status = "occupied" ∨
      b.status = "reserved" ∨ b.status = "closed" := by decide
  have hpos : 0 < (calculate_zone_occupancy baysSeven 1).available_bays +
      (calculate_zone_occupancy baysSeven 1).occupied_bays +
      (calculate_zone_occupancy baysSeven 1).reserved_bays := by decide
  exact ⟨h, hpos, (c7_zone_occupancy_spec baysSeven 1 h).2.1 hpos⟩

/-- The `UPDATE parking_bays SET status = st WHERE bay_id = bid` row
images: the targeted bay appears with the new status, every other bay
unchanged. -/
theorem mem_map_setStatus (bays : List ParkingBay) (bid : Nat) (st : String)
    (b : ParkingBay) (hb : b ∈ bays) :
    (b.bay_id = bid →
      { b with status := st } ∈
        bays.map (fun x => if x.bay_id == bid then { x with status := st } else x)) ∧
    (b.bay_id ≠ bid →
      b ∈
        bays.map (fun x => if x.bay_id == bid then { x with status := st } else x)) := by
  constructor
  · intro h
    have hcond : (b.bay_id == bid) = true := by simp [h]
    have hmem := List.mem_map_of_mem
      (f := fun x : ParkingBay => if x.bay_id == bid then { x with status := st } else x) hb
    dsimp only at hmem
    rwa [if_pos hcond] at hmem
  · intro h
    have hcond : ¬ (b.bay_id == bid) = true := by simp [beq_iff_eq, h]
    have hmem := List.mem_map_of_mem
      (f := fun x : ParkingBay => if x.bay_id == bid then { x with status := st } else x) hb
    dsimp only at hmem
    rwa [if_neg hcond] at hmem

/-- C9: the session trigger's step relation — inserting an `'active'`
session marks the referenced bay `'occupied'` (other bays untouched); a
non-`'active'` insert changes nothing; an `'active'` session updated to
`'completed'` or `'cancelled'` marks the bay `'available'`; updated to
`'overstay'` it is (re-)marked `'occupied'`; any other status change
leaves the bay table untouched. -/
theorem c9_session_step_relation (bays : List ParkingBay)
    (oldS newS s : ParkingSession) :
    (s.status = "active" → ∀ b ∈ bays,
      (b.bay_id = s.bay_id →
        { b with status := "occupied" } ∈ update_bay_status_on_session_insert bays s) ∧
      (b.bay_id ≠ s.bay_id → b ∈ update_bay_status_on_session_insert bays s)) ∧
    (s.status ≠ "active" → update_bay_status_on_session_insert bays s = bays) ∧
    ((newS.status = "completed" ∨ newS.status = "cancelled") →
      oldS.status = "active" → ∀ b ∈ bays,
      (b.bay_id = newS.bay_id →
        { b with status := "available" } ∈
          update_bay_status_on_session_update bays oldS newS) ∧
      (b.bay_id ≠ newS.bay_id →
        b ∈ update_bay_status_on_session_update bays oldS newS)) ∧
    (newS.status = "overstay" → oldS.status = "active" → ∀ b ∈ bays,
      (b.bay_id = newS.bay_id →
        { b with status := "occupied" } ∈
          update_bay_status_on_session_update bays oldS newS) ∧
      (b.bay_id ≠ newS.bay_id →
        b ∈ update_bay_status_on_session_update bays oldS newS)) ∧
    (¬((newS.status = "completed" ∨ newS.status = "cancelled" ∨
        newS.status = "overstay") ∧ oldS.status = "active") →
      update_bay_status_on_session_update bays oldS newS = bays) := by
  refine ⟨?_, ?_, ?_, ?_, ?_⟩
  · intro hs b hb
    simp only [update_bay_status_on_session_insert, if_pos (by simp [hs] :
      (s.status == "active") = true)]
    exact mem_map_setStatus bays s.bay_id "occupied" b hb
  · intro hs
    simp only [update_bay_status_on_session_insert,
      if_neg (by simp [beq_iff_eq, hs] : ¬ (s.status == "active") = true)]
  · intro hnew hold b hb
    have hc : ((newS.status == "completed" || newS.status == "cancelled")
        && oldS.status == "active") = true := by
      rcases hnew with hnew | hnew <;> simp [hnew, hold]
    simp only [update_bay_status_on_session_update, if_pos hc]
    exact mem_map_setStatus bays newS.bay_id "available" b hb
  · intro hnew hold b hb
    have hc1 : ¬ ((newS.status == "completed" || newS.status == "cancelled")
        && oldS.status == "active") = true := by
      simp [hnew]
    have hc2 : (newS.status == "overstay" && oldS.status == "active") = true := by
      simp [hnew, hold]
    simp only [update_bay_status_on_session_update, if_neg hc1, if_pos hc2]
    exact mem_map_setStatus bays newS.bay_id "occupied" b hb
  · intro hno
    have hc1 : ¬ ((newS.status == "completed" || newS.status == "cancelled")
        && oldS.status == "active") = true := by
      intro hc
      simp only [Bool.and_eq_true, Bool.or_eq_true, beq_iff_eq] at hc
      exact hno ⟨hc.1.elim Or.inl (fun hx => Or.inr (Or.inl hx)), hc.2⟩
    have hc2 : ¬ (newS.status == "overstay" && oldS.status == "active") = true := by
      intro hc
      simp only [Bool.and_eq_true, beq_iff_eq] at hc
      exact hno ⟨Or.inr (Or.inr hc.1), hc.2⟩
    simp only [update_bay_status_on_session_update, if_neg hc1, if_neg hc2]

/-- Test session: an active session on `bayA`. -/
def sessionActive : ParkingSession :=
  { session_id := 1, bay_id := 5, status := "active" }

/-- C9 witness: inserting the active `sessionActive` marks `bayA`
(whose `bay_id` the session references) as `'occupied'`. -/
theorem c9_witness :
    sessionActive.status = "active" ∧ bayA.bay_id = sessionActive.bay_id ∧
    { bayA with status := "occupied" } ∈
      update_bay_status_on_session_insert [bayA] sessionActive :=
  ⟨rfl, rfl,
    (((c9_session_step_relation [bayA] sessionActive sessionActive sessionActive).1
      rfl bayA (List.mem_singleton.mpr rfl)).1 rfl)⟩

/-- A test bay whose current status is `'closed'` (so not `'available'`). -/
def bayClosed : ParkingBay :=
  { bay_id := 7, zone_id := 1, bay_number := "C-7", status := "closed"
  , is_disabled_only := false, is_electric := false, geom := bayPoly }

/-- An active session inserted against the closed `bayClosed`. -/
def sessionOnClosed : ParkingSession :=
  { session_id := 2, bay_id := 7, status := "active" }

/-- C8 counterexample: `bayClosed` is not currently `'available'`, yet
inserting an active session overwrites its status to `'occupied'`
instead of failing with a conflict and leaving the status unchanged —
there is no expected-current check anywhere in the trigger. -/
theorem c8_counterexample :
    bayClosed.status = "closed" ∧ bayClosed.status ≠ "available" ∧
    (update_bay_status_on_session_insert [bayClosed] sessionOnClosed).map
      ParkingBay.status = ["occupied"] ∧
    (update_bay_status_on_session_insert [bayClosed] sessionOnClosed).map
      ParkingBay.status ≠ [bayClosed].map ParkingBay.status :=
  ⟨rfl, by decide, rfl, by decide⟩

/-- C8 amended: bay status mutation on session start is an unconditional
overwrite, not a check-and-set — inserting an `'active'` session sets
the referenced bay's status to `'occupied'` regardless of its current
status, no conflict result exists, and no row is dropped. -/
theorem c8_amended_unconditional_overwrite (bays : List ParkingBay)
    (s : ParkingSession) (hs : s.status = "active") :
    (∀ b ∈ bays, b.bay_id = s.bay_id →
      { b with status := "occupied" } ∈ update_bay_status_on_session_insert bays s) ∧
    (update_bay_status_on_session_insert bays s).length = bays.length := by
  constructor
  · intro b hb heq
    simp only [update_bay_status_on_session_insert, if_pos (by simp [hs] :
      (s.status == "active") = true)]
    exact (mem_map_setStatus bays s.bay_id "occupied" b hb).1 heq
  · simp [update_bay_status_on_session_insert, hs]

/-- C8 witness: the closed `bayClosed` is overwritten to `'occupied'` by
inserting the active `sessionOnClosed`, per the amended (unconditional
overwrite) behavior. -/
theorem c8_witness :
    sessionOnClosed.status = "active" ∧
    { bayClosed with status := "occupied" } ∈
      update_bay_status_on_session_insert [bayClosed] sessionOnClosed :=
  ⟨rfl,
    (c8_amended_unconditional_overwrite [bayClosed] sessionOnClosed rfl).1
      bayClosed (List.mem_singleton.mpr rfl) rfl⟩

end SmartCityParking
